import Mathlib

/-!
Shallow embedding of `multi-node/aws/pkg/cluster/cluster.go` from
coreos-kubernetes.  Remote AWS calls (CloudFormation `ValidateTemplate`,
`DescribeStacks`, `CreateStack`, `ListStackResources`; EC2 `DescribeVpcs`,
`DescribeSubnets`) are modelled by explicit environment records carrying the
responses the provider would return; each Go function becomes a pure Lean
function of the configuration and that environment.  IPv4 addresses are
natural numbers below 2^32; `net.ParseCIDR` and `(*net.IPNet).Contains` are
embedded over that representation.
-/

/-- `config.Cluster` — the fields `cluster.go` reads: `ClusterName`,
`VPCID`, `VPCCIDR`, `InstanceCIDR`, `Region`. -/
structure ClusterCfg where
  clusterName : String
  vpcID : String
  vpcCIDR : String
  instanceCIDR : String
  region : String
deriving DecidableEq

/-- `ClusterInfo` from cluster.go: `Name` and `ControllerIP`. -/
structure ClusterInfo where
  Name : String
  ControllerIP : String
deriving DecidableEq

/- ---------------------------------------------------------------------
   IPv4 / CIDR model (Go `net.ParseCIDR`, `(*net.IPNet).Contains`,
   `(*net.IPNet).String`)
--------------------------------------------------------------------- -/

/-- `ip & mask` for a prefix of length `m` over 32-bit addresses:
clear the low `32 - m` bits. -/
def maskAddr (ip m : Nat) : Nat :=
  ip / 2 ^ (32 - m) * 2 ^ (32 - m)

/-- A parsed `*net.IPNet`: the masked base address and the prefix length. -/
structure IPNet where
  base : Nat
  maskLen : Nat
deriving DecidableEq

/-- Go `(*net.IPNet).Contains(ip)`: `ip & mask == base`. -/
def IPNet.contains (n : IPNet) (ip : Nat) : Bool :=
  maskAddr ip n.maskLen == n.base

/-- The address range `[base, base + 2^(32-m))` covered by a prefix. -/
def IPNet.inRange (n : IPNet) (x : Nat) : Prop :=
  n.base ≤ x ∧ x < n.base + 2 ^ (32 - n.maskLen)

/-- A parsed CIDR as returned by Go `net.ParseCIDR`: the (unmasked) IP
from the text plus the masked network. -/
structure ParsedCIDR where
  ip : Nat
  net : IPNet
deriving DecidableEq

/-- The two-way containment test from line 156 of cluster.go, on parsed
CIDRs `a` (the instance CIDR) and `b` (an existing subnet):
`existingSubnetNet.Contains(subnetIP) || subnetNet.Contains(existingSubnetIP)`. -/
def overlapsCIDR (a b : ParsedCIDR) : Bool :=
  b.net.contains a.ip || a.net.contains b.ip

/-- Split a character list at every occurrence of `sep`. -/
def splitOnChar (sep : Char) : List Char → List (List Char)
  | [] => [[]]
  | c :: cs =>
    if c = sep then [] :: splitOnChar sep cs
    else
      match splitOnChar sep cs with
      | h :: t => (c :: h) :: t
      | [] => [[c]]

/-- Is `c` an ASCII decimal digit? -/
def isDigitChar (c : Char) : Bool :=
  48 ≤ c.toNat && c.toNat ≤ 57

/-- Accumulate a decimal value over digit characters. -/
def parseDigitsAux : List Char → Nat → Option Nat
  | [], acc => some acc
  | c :: cs, acc =>
    if isDigitChar c then parseDigitsAux cs (acc * 10 + (c.toNat - 48))
    else none

/-- A non-empty run of decimal digits as a number. -/
def parseDecimal : List Char → Option Nat
  | [] => none
  | c :: cs => parseDigitsAux (c :: cs) 0

/-- One dotted-quad octet: decimal digits, value ≤ 255, no leading zeros. -/
def parseOctet (cs : List Char) : Option Nat :=
  match cs with
  | '0' :: _ :: _ => none
  | _ =>
    match parseDecimal cs with
    | some n => if n ≤ 255 then some n else none
    | none => none

/-- A dotted-quad IPv4 address as a natural number below 2^32. -/
def parseIPv4 (cs : List Char) : Option Nat :=
  match splitOnChar '.' cs with
  | [a, b, c, d] =>
    match parseOctet a, parseOctet b, parseOctet c, parseOctet d with
    | some x, some y, some z, some w => some (((x * 256 + y) * 256 + z) * 256 + w)
    | _, _, _, _ => none
  | _ => none

/-- The prefix length after the slash: decimal, at most 32. -/
def parseMaskLen (cs : List Char) : Option Nat :=
  match parseDecimal cs with
  | some n => if n ≤ 32 then some n else none
  | none => none

/-- Go `net.ParseCIDR` restricted to IPv4: returns the parsed IP and the
masked network. -/
def parseCIDR (s : String) : Option (Nat × IPNet) :=
  match splitOnChar '/' s.toList with
  | [addr, mask] =>
    match parseIPv4 addr, parseMaskLen mask with
    | some ip, some m => some (ip, { base := maskAddr ip m, maskLen := m })
    | _, _ => none
  | _ => none

/-- Render an address back to dotted-quad text (Go `net.IP.String`). -/
def ipToString (ip : Nat) : String :=
  toString (ip / 16777216 % 256) ++ "." ++ toString (ip / 65536 % 256) ++ "."
    ++ toString (ip / 256 % 256) ++ "." ++ toString (ip % 256)

/-- Go `(*net.IPNet).String()`: masked base, a slash, the prefix length. -/
def IPNet.render (n : IPNet) : String :=
  ipToString n.base ++ "/" ++ toString n.maskLen

example : parseCIDR "10.0.1.128/25" =
    some (167772544, { base := 167772544, maskLen := 25 }) := by decide
example : parseCIDR "10.0.1.5/24" =
    some (167772421, { base := 167772416, maskLen := 24 }) := by decide
example : IPNet.render { base := 167772544, maskLen := 25 } = "10.0.1.128/25" := by decide

/- ---------------------------------------------------------------------
   Environment records: the provider responses the Go code consumes
--------------------------------------------------------------------- -/

/-- Decidable equality for `Except`, so concrete runs can be checked by
`decide`. -/
instance {ε α : Type} [DecidableEq ε] [DecidableEq α] : DecidableEq (Except ε α) :=
  fun x y =>
    match x, y with
    | .ok a, .ok b =>
      if h : a = b then .isTrue (by rw [h]) else .isFalse (fun hh => h (Except.ok.inj hh))
    | .error a, .error b =>
      if h : a = b then .isTrue (by rw [h]) else .isFalse (fun hh => h (Except.error.inj hh))
    | .ok _, .error _ => .isFalse (fun hh => Except.noConfusion hh)
    | .error _, .ok _ => .isFalse (fun hh => Except.noConfusion hh)

/-- An `ec2.Vpc` as read by the code: `VpcId` and `CidrBlock`. -/
structure Vpc where
  vpcId : String
  cidrBlock : String
deriving DecidableEq

/-- An `ec2.Subnet` as read by the code: `SubnetId` and `CidrBlock`. -/
structure Subnet where
  subnetId : String
  cidrBlock : String
deriving DecidableEq

/-- One `DescribeSubnets` response: the subnets of the page and the
pagination token (`nil` modelled as `none`).  cluster.go issues a single
`DescribeSubnets` call and never reads `nextToken`. -/
structure SubnetsPage where
  subnets : List Subnet
  nextToken : Option String
deriving DecidableEq

/-- The EC2 responses `validateExistingVPC` consumes. -/
structure VpcEnv where
  describeVpcs : Except String (List Vpc)
  describeSubnets : Except String SubnetsPage
deriving DecidableEq

/-- A `cloudformation.Stack` as read by the code: status string
(`aws.StringValue` of `StackStatus`) and status reason. -/
structure StackInfo where
  stackStatus : String
  stackStatusReason : String
deriving DecidableEq

/-- The CloudFormation responses `ValidateStack` consumes: the
`ValidateTemplate` outcome (the report rendered to text on success) and
the `DescribeStacks` outcome (error messages as strings). -/
structure ValidateEnv where
  validateTemplate : Except String String
  describeStacks : Except String (List StackInfo)
  vpc : VpcEnv
deriving DecidableEq

/- ---------------------------------------------------------------------
   validateExistingVPC (cluster.go lines 103-162)
--------------------------------------------------------------------- -/

/-- The loop of lines 150-159: scan the returned subnets in order; parse
each CIDR; report the first conflicting subnet, with the message of
line 157. -/
def scanSubnets (subnetIP : Nat) (subnetNet : IPNet) : List Subnet → Option String
  | [] => none
  | s :: rest =>
    match parseCIDR s.cidrBlock with
    | none => some ("error parsing existing subnet cidr " ++ s.cidrBlock)
    | some (exIP, exNet) =>
      if overlapsCIDR ⟨subnetIP, subnetNet⟩ ⟨exIP, exNet⟩ then
        some ("instance cidr (" ++ subnetNet.render ++ ") conflicts with existing subnet "
          ++ s.subnetId ++ ", cidr=" ++ exNet.render)
      else scanSubnets subnetIP subnetNet rest

/-- `validateExistingVPC`, instrumented: the second component records
whether the `DescribeSubnets` call was reached.  `none` in the first
component is the nil-error (success) return. -/
def validateExistingVPCT (cfg : ClusterCfg) (env : VpcEnv) : Option String × Bool :=
  match env.describeVpcs with
  | .error e => (some ("error describing existing vpc: " ++ e), false)
  | .ok vpcs =>
    match vpcs with
    | [] => (some ("could not find vpc " ++ cfg.vpcID ++ " in region " ++ cfg.region), false)
    | _ :: _ :: _ =>
      (some ("found more than one vpc with id " ++ cfg.vpcID ++ ". this is NOT NORMAL."), false)
    | [existingVPC] =>
      if existingVPC.cidrBlock != cfg.vpcCIDR then
        (some ("configured vpcCidr (" ++ cfg.vpcCIDR ++ ") does not match actual existing vpc cidr ("
          ++ existingVPC.cidrBlock ++ ")"), false)
      else
        match env.describeSubnets with
        | .error e => (some ("error describing subnets for vpc: " ++ e), true)
        | .ok page =>
          match parseCIDR cfg.instanceCIDR with
          | none => (some ("error parsing instances cidr " ++ cfg.instanceCIDR), true)
          | some (subnetIP, subnetNet) => (scanSubnets subnetIP subnetNet page.subnets, true)

/-- `validateExistingVPC` proper: just the returned error. -/
def validateExistingVPC (cfg : ClusterCfg) (env : VpcEnv) : Option String :=
  (validateExistingVPCT cfg env).1

/- ---------------------------------------------------------------------
   ValidateStack (cluster.go lines 58-101)
--------------------------------------------------------------------- -/

/-- A pattern token of the not-found regular expression: a literal
character, or `.` matching any character. -/
inductive RTok where
  | lit (c : Char)
  | anyChar
deriving DecidableEq

/-- Compile a pattern whose only metacharacter is `.` (the shape produced
by interpolating a cluster name, unescaped, into the not-found pattern). -/
def compileDotPattern (s : String) : List RTok :=
  s.toList.map (fun c => if c = '.' then RTok.anyChar else RTok.lit c)

/-- Match the token list against a prefix of the text: this is Go
`regexp.Match` for a `^`-anchored pattern of literals and dots. -/
def rtokMatch : List RTok → List Char → Bool
  | [], _ => true
  | _ :: _, [] => false
  | t :: ts, c :: cs =>
    (match t with
     | RTok.lit l => l == c
     | RTok.anyChar => true) && rtokMatch ts cs

/-- Line 75 and 79 of cluster.go: does the error message match
`^ValidationError: Stack with id <clusterName> does not exist`, with the
cluster name interpolated into the pattern unescaped? -/
def stackNotExistMatch (clusterName msg : String) : Bool :=
  rtokMatch (compileDotPattern ("ValidationError: Stack with id " ++ clusterName
    ++ " does not exist")) msg.toList

/-- `ValidateStack`, instrumented: the second component records whether
`validateExistingVPC` was invoked. -/
def ValidateStackT (cfg : ClusterCfg) (env : ValidateEnv) : Except String String × Bool :=
  match env.validateTemplate with
  | .error e => (.error ("invalid cloudformation stack: " ++ e), false)
  | .ok validationReport =>
    let stackExistsE : Except String Bool :=
      match env.describeStacks with
      | .error e =>
        if stackNotExistMatch cfg.clusterName e then .ok false
        else .error ("error describing stack: " ++ e)
      | .ok stackList =>
        if stackList.length > 1 then
          .error ("expected error: found more the one stack with name " ++ cfg.clusterName)
        else .ok true
    match stackExistsE with
    | .error e => (.error e, false)
    | .ok stackExists =>
      if (cfg.vpcID != "") && !stackExists then
        match validateExistingVPC cfg env.vpc with
        | some ve => (.error ve, true)
        | none => (.ok validationReport, true)
      else (.ok validationReport, false)

/-- `ValidateStack` proper. -/
def ValidateStack (cfg : ClusterCfg) (env : ValidateEnv) : Except String String :=
  (ValidateStackT cfg env).1

/-- Did the `DescribeStacks` call classify the stack as not existing?
True exactly when the call errored with a message matching the not-found
pattern (lines 77-84). -/
def classifiedNotExist (cfg : ClusterCfg) (env : ValidateEnv) : Bool :=
  match env.describeStacks with
  | .error e => stackNotExistMatch cfg.clusterName e
  | .ok _ => false

/- ---------------------------------------------------------------------
   Create's polling loop (cluster.go lines 181-202)
--------------------------------------------------------------------- -/

/-- SDK constant `cloudformation.ResourceStatusCreateComplete`. -/
def resourceStatusCreateComplete : String := "CREATE_COMPLETE"
/-- SDK constant `cloudformation.ResourceStatusCreateFailed`. -/
def resourceStatusCreateFailed : String := "CREATE_FAILED"
/-- SDK constant `cloudformation.ResourceStatusCreateInProgress`. -/
def resourceStatusCreateInProgress : String := "CREATE_IN_PROGRESS"

/-- The `for` loop of `Create`, as a function of the finite sequence of
`DescribeStacks` responses the provider returns.  The result is `none`
when the sequence is exhausted while the loop would still poll; otherwise
`some (outcome, delays)` where `delays` counts the 3-second
`time.Sleep` calls taken (one per `CREATE_IN_PROGRESS` response). -/
def createPollLoop : List (Except String (List StackInfo)) → Option (Except String Unit × Nat)
  | [] => none
  | resp :: rest =>
    match resp with
    | .error e => some (.error e, 0)
    | .ok [] => some (.error "stack not found", 0)
    | .ok (st :: _) =>
      if st.stackStatus == resourceStatusCreateComplete then
        some (.ok (), 0)
      else if st.stackStatus == resourceStatusCreateFailed then
        some (.error ("Stack creation failed: " ++ st.stackStatus ++ " : "
          ++ st.stackStatusReason), 0)
      else if st.stackStatus == resourceStatusCreateInProgress then
        (createPollLoop rest).map (fun r => (r.1, r.2 + 1))
      else
        some (.error ("unexpected stack status: " ++ st.stackStatus), 0)

/- ---------------------------------------------------------------------
   Info (cluster.go lines 244-277)
--------------------------------------------------------------------- -/

/-- A `cloudformation.StackResourceSummary` as read by the code:
`LogicalResourceId` (via `aws.StringValue`, so a nil pointer reads as the
empty string) and `PhysicalResourceId` (kept as a pointer: `Option`). -/
structure StackResourceSummary where
  logicalResourceId : String
  physicalResourceId : Option String
deriving DecidableEq

/-- One `ListStackResources` response page. -/
structure ResourcesPage where
  summaries : List StackResourceSummary
  nextToken : Option String
deriving DecidableEq

/-- The pagination loop of lines 250-262: accumulate summaries from
successive responses, stopping when the returned token reads as the empty
string.  `none` means the response sequence was exhausted while the loop
would still request another page. -/
def collectStackResources :
    List (Except String ResourcesPage) → Option (Except String (List StackResourceSummary))
  | [] => none
  | resp :: rest =>
    match resp with
    | .error e => some (.error e)
    | .ok page =>
      if page.nextToken.getD "" == "" then some (.ok page.summaries)
      else (collectStackResources rest).map (fun r => r.map (fun l => page.summaries ++ l))

/-- The scan of lines 264-274: walk the accumulated resources, updating
the `ClusterInfo` on each `EIPController` with a physical id and failing
on an `EIPController` without one. -/
def infoScan : List StackResourceSummary → ClusterInfo → Except String ClusterInfo
  | [], info => .ok info
  | r :: rest, info =>
    if r.logicalResourceId == "EIPController" then
      match r.physicalResourceId with
      | some p => infoScan rest { info with ControllerIP := p }
      | none => .error "unable to get public IP of controller instance"
    else infoScan rest info

/-- `Info`: list the stack resources (paginating) and scan them, starting
from the zero-valued `ClusterInfo` of line 264 (`var info ClusterInfo`).
The configuration is used only to address the request. -/
def Info (cfg : ClusterCfg) (responses : List (Except String ResourcesPage)) :
    Option (Except String ClusterInfo) :=
  match collectStackResources responses with
  | none => none
  | some (.error e) => some (.error e)
  | some (.ok resources) => some (infoScan resources { Name := "", ControllerIP := "" })

example :
    Info { clusterName := "c", vpcID := "", vpcCIDR := "", instanceCIDR := "", region := "" }
      [.ok { summaries := [{ logicalResourceId := "EIPController",
                             physicalResourceId := some "1.2.3.4" }], nextToken := none }]
      = some (.ok { Name := "", ControllerIP := "1.2.3.4" }) := by decide

/- ---------------------------------------------------------------------
   Helper lemmas
--------------------------------------------------------------------- -/

lemma infoScan_no_eip (rs : List StackResourceSummary) (info : ClusterInfo)
    (h : ∀ r ∈ rs, r.logicalResourceId ≠ "EIPController") :
    infoScan rs info = .ok info := by
  induction rs generalizing info with
  | nil => rfl
  | cons r rest ih =>
    have h1 : r.logicalResourceId ≠ "EIPController" := h r (by simp)
    have h2 : ∀ x ∈ rest, x.logicalResourceId ≠ "EIPController" :=
      fun x hx => h x (by simp [hx])
    simp only [infoScan, beq_iff_eq, if_neg h1]
    exact ih info h2

lemma infoScan_missing_physical (rs : List StackResourceSummary) (info : ClusterInfo)
    (h : ∃ r ∈ rs, r.logicalResourceId = "EIPController" ∧ r.physicalResourceId = none) :
    infoScan rs info = .error "unable to get public IP of controller instance" := by
  induction rs generalizing info with
  | nil => simp at h
  | cons r rest ih =>
    by_cases hb : r.logicalResourceId = "EIPController"
    · cases hp : r.physicalResourceId with
      | none => simp [infoScan, hb, hp]
      | some p =>
        have htail : ∃ x ∈ rest, x.logicalResourceId = "EIPController" ∧ x.physicalResourceId = none := by
          rcases h with ⟨x, hx, hx1, hx2⟩
          rcases List.mem_cons.mp hx with hhd | htl
          · subst hhd; rw [hp] at hx2; cases hx2
          · exact ⟨x, htl, hx1, hx2⟩
        simp only [infoScan, beq_iff_eq, if_pos hb, hp]
        exact ih _ htail
    · have htail : ∃ x ∈ rest, x.logicalResourceId = "EIPController" ∧ x.physicalResourceId = none := by
        rcases h with ⟨x, hx, hx1, hx2⟩
        rcases List.mem_cons.mp hx with hhd | htl
        · subst hhd; exact absurd hx1 hb
        · exact ⟨x, htl, hx1, hx2⟩
      simp only [infoScan, beq_iff_eq, if_neg hb]
      exact ih info htail

lemma infoScan_single_eip (rs : List StackResourceSummary) (r : StackResourceSummary)
    (v : String) (info : ClusterInfo)
    (hf : rs.filter (fun x => x.logicalResourceId == "EIPController") = [r])
    (hv : r.physicalResourceId = some v) :
    infoScan rs info = .ok { info with ControllerIP := v } := by
  induction rs generalizing info with
  | nil => simp at hf
  | cons x rest ih =>
    by_cases hb : x.logicalResourceId = "EIPController"
    · have : x :: rest.filter (fun x => x.logicalResourceId == "EIPController") = [r] := by
        simpa [List.filter_cons, hb] using hf
      have hx : x = r := by injection this
      have hrest : rest.filter (fun x => x.logicalResourceId == "EIPController") = [] := by
        injection this with _ h2
      have hnone : ∀ y ∈ rest, y.logicalResourceId ≠ "EIPController" := by
        intro y hy
        have := List.filter_eq_nil_iff.mp hrest y hy
        simpa using this
      subst hx
      simp only [infoScan, beq_iff_eq, if_pos hb, hv]
      exact infoScan_no_eip rest _ hnone
    · have hrest : rest.filter (fun x => x.logicalResourceId == "EIPController") = [r] := by
        simpa [List.filter_cons, hb] using hf
      simp only [infoScan, beq_iff_eq, if_neg hb]
      exact ih info hrest

/- ---------------------------------------------------------------------
   Claim theorems
--------------------------------------------------------------------- -/

/-- C3: whenever the live VPC's CIDR string differs (byte-for-byte) from
the configured expected VPC CIDR, `validateExistingVPC` returns the
stale-topology error, and it does so without reaching the subnet-listing
call: the instrumentation flag is `false` and the result is the same for
every possible `DescribeSubnets` response, since `env.describeSubnets`
is unconstrained here. -/
theorem validateExistingVPC_stale_cidr_aborts (cfg : ClusterCfg) (env : VpcEnv) (vpc : Vpc)
    (hv : env.describeVpcs = .ok [vpc]) (hne : vpc.cidrBlock ≠ cfg.vpcCIDR) :
    validateExistingVPCT cfg env =
      (some ("configured vpcCidr (" ++ cfg.vpcCIDR ++ ") does not match actual existing vpc cidr ("
        ++ vpc.cidrBlock ++ ")"), false) := by
  simp only [validateExistingVPCT, hv]
  rw [if_pos (by simpa using hne)]

theorem validateExistingVPC_stale_cidr_aborts_witness :
    (({ describeVpcs := .ok [{ vpcId := "vpc-1", cidrBlock := "10.0.0.0/16" }],
        describeSubnets := .ok { subnets := [{ subnetId := "subnet-1", cidrBlock := "10.1.1.0/24" }],
                                 nextToken := none } } : VpcEnv).describeVpcs
      = .ok [{ vpcId := "vpc-1", cidrBlock := "10.0.0.0/16" }])
    ∧ ("10.0.0.0/16" : String) ≠ "10.1.0.0/16"
    ∧ validateExistingVPCT
        { clusterName := "mycluster", vpcID := "vpc-1", vpcCIDR := "10.1.0.0/16",
          instanceCIDR := "10.1.1.0/24", region := "us-west-1" }
        { describeVpcs := .ok [{ vpcId := "vpc-1", cidrBlock := "10.0.0.0/16" }],
          describeSubnets := .ok { subnets := [{ subnetId := "subnet-1", cidrBlock := "10.1.1.0/24" }],
                                   nextToken := none } } =
      (some ("configured vpcCidr (10.1.0.0/16) does not match actual existing vpc cidr (10.0.0.0/16)"),
        false) :=
  ⟨rfl, by decide,
    validateExistingVPC_stale_cidr_aborts
      { clusterName := "mycluster", vpcID := "vpc-1", vpcCIDR := "10.1.0.0/16",
        instanceCIDR := "10.1.1.0/24", region := "us-west-1" }
      { describeVpcs := .ok [{ vpcId := "vpc-1", cidrBlock := "10.0.0.0/16" }],
        describeSubnets := .ok { subnets := [{ subnetId := "subnet-1", cidrBlock := "10.1.1.0/24" }],
                                 nextToken := none } }
      { vpcId := "vpc-1", cidrBlock := "10.0.0.0/16" } rfl (by decide)⟩

/-- C9: a resource listing that contains no `EIPController` logical id at
all (the empty listing included) is silently tolerated: `Info` succeeds
with the zero-valued `ClusterInfo`, whose `ControllerIP` is the empty
string. -/
theorem info_no_eip_tolerated (cfg : ClusterCfg)
    (responses : List (Except String ResourcesPage)) (rs : List StackResourceSummary)
    (h : collectStackResources responses = some (.ok rs))
    (habs : ∀ r ∈ rs, r.logicalResourceId ≠ "EIPController") :
    Info cfg responses = some (.ok { Name := "", ControllerIP := "" }) := by
  simp only [Info, h]
  rw [infoScan_no_eip rs _ habs]

theorem info_no_eip_tolerated_witness :
    (collectStackResources [.ok { summaries := [{ logicalResourceId := "InternetGateway",
                                                  physicalResourceId := some "igw-1" }],
                                  nextToken := none }]
      = some (.ok [{ logicalResourceId := "InternetGateway", physicalResourceId := some "igw-1" }]))
    ∧ (∀ r ∈ [({ logicalResourceId := "InternetGateway", physicalResourceId := some "igw-1" }
          : StackResourceSummary)], r.logicalResourceId ≠ "EIPController")
    ∧ Info { clusterName := "mycluster", vpcID := "", vpcCIDR := "", instanceCIDR := "",
             region := "us-west-1" }
        [.ok { summaries := [{ logicalResourceId := "InternetGateway",
                               physicalResourceId := some "igw-1" }], nextToken := none }]
      = some (.ok { Name := "", ControllerIP := "" }) :=
  ⟨rfl, by decide,
    info_no_eip_tolerated
      { clusterName := "mycluster", vpcID := "", vpcCIDR := "", instanceCIDR := "",
        region := "us-west-1" }
      [.ok { summaries := [{ logicalResourceId := "InternetGateway",
                             physicalResourceId := some "igw-1" }], nextToken := none }]
      [{ logicalResourceId := "InternetGateway", physicalResourceId := some "igw-1" }]
      rfl (by decide)⟩

/-- C8: over a successfully collected resource list, (a) if some resource
carries the `EIPController` logical id with no physical id, `Info` fails
with the incomplete-stack error even though listing succeeded; (b) if the
unique `EIPController` resource carries a physical id, `Info` succeeds
and returns it as the `ControllerIP`. -/
theorem info_eip_physical_id (cfg : ClusterCfg)
    (responses : List (Except String ResourcesPage)) (rs : List StackResourceSummary)
    (h : collectStackResources responses = some (.ok rs)) :
    ((∃ r ∈ rs, r.logicalResourceId = "EIPController" ∧ r.physicalResourceId = none) →
      Info cfg responses = some (.error "unable to get public IP of controller instance"))
    ∧ (∀ r v, rs.filter (fun x => x.logicalResourceId == "EIPController") = [r] →
        r.physicalResourceId = some v →
        Info cfg responses = some (.ok { Name := "", ControllerIP := v })) := by
  constructor
  · intro hex
    simp only [Info, h]
    rw [infoScan_missing_physical rs _ hex]
  · intro r v hf hv
    simp only [Info, h]
    rw [infoScan_single_eip rs r v _ hf hv]

theorem info_eip_physical_id_witness :
    (collectStackResources [.ok { summaries := [{ logicalResourceId := "EIPController",
                                                  physicalResourceId := some "203.0.113.10" }],
                                  nextToken := none }]
      = some (.ok [{ logicalResourceId := "EIPController", physicalResourceId := some "203.0.113.10" }]))
    ∧ ([({ logicalResourceId := "EIPController", physicalResourceId := some "203.0.113.10" }
          : StackResourceSummary)].filter (fun x => x.logicalResourceId == "EIPController")
        = [{ logicalResourceId := "EIPController", physicalResourceId := some "203.0.113.10" }])
    ∧ Info { clusterName := "mycluster", vpcID := "", vpcCIDR := "", instanceCIDR := "",
             region := "us-west-1" }
        [.ok { summaries := [{ logicalResourceId := "EIPController",
                               physicalResourceId := some "203.0.113.10" }], nextToken := none }]
      = some (.ok { Name := "", ControllerIP := "203.0.113.10" }) :=
  ⟨rfl, by decide,
    (info_eip_physical_id
      { clusterName := "mycluster", vpcID := "", vpcCIDR := "", instanceCIDR := "",
        region := "us-west-1" }
      [.ok { summaries := [{ logicalResourceId := "EIPController",
                             physicalResourceId := some "203.0.113.10" }], nextToken := none }]
      [{ logicalResourceId := "EIPController", physicalResourceId := some "203.0.113.10" }]
      rfl).2
      { logicalResourceId := "EIPController", physicalResourceId := some "203.0.113.10" }
      "203.0.113.10" (by decide) rfl⟩

/-- C2: the `Create` polling loop as a function of the finite sequence of
describe responses.  With any run of `CREATE_IN_PROGRESS` responses in
front (each costing exactly one 3-second sleep), the first other status
decides the outcome: `CREATE_COMPLETE` returns success, `CREATE_FAILED`
returns the provisioning error carrying the provider's status reason, and
any unknown status returns the unexpected-state error — in each case for
every possible continuation `tail`, so no further poll is issued.  A
sequence of in-progress responses alone leaves the loop polling. -/
theorem createPollLoop_lifecycle (pre : List StackInfo)
    (hpre : ∀ s ∈ pre, s.stackStatus = resourceStatusCreateInProgress)
    (st : StackInfo) (tail : List (Except String (List StackInfo))) :
    (st.stackStatus = resourceStatusCreateComplete →
      createPollLoop (pre.map (fun s => Except.ok [s]) ++ Except.ok [st] :: tail)
        = some (.ok (), pre.length))
    ∧ (st.stackStatus = resourceStatusCreateFailed →
      createPollLoop (pre.map (fun s => Except.ok [s]) ++ Except.ok [st] :: tail)
        = some (.error ("Stack creation failed: " ++ st.stackStatus ++ " : "
            ++ st.stackStatusReason), pre.length))
    ∧ (st.stackStatus ≠ resourceStatusCreateComplete →
       st.stackStatus ≠ resourceStatusCreateFailed →
       st.stackStatus ≠ resourceStatusCreateInProgress →
      createPollLoop (pre.map (fun s => Except.ok [s]) ++ Except.ok [st] :: tail)
        = some (.error ("unexpected stack status: " ++ st.stackStatus), pre.length))
    ∧ createPollLoop (pre.map (fun s => Except.ok [s])) = none := by
  induction pre with
  | nil =>
    refine ⟨fun h => ?_, fun h => ?_, fun h1 h2 h3 => ?_, rfl⟩
    · simp [createPollLoop, h]
    · simp [createPollLoop, h, resourceStatusCreateFailed, resourceStatusCreateComplete]
    · simp [createPollLoop, beq_iff_eq, h1, h2, h3]
  | cons s rest ih =>
    have hs : s.stackStatus = resourceStatusCreateInProgress := hpre s (by simp)
    have hrest : ∀ x ∈ rest, x.stackStatus = resourceStatusCreateInProgress :=
      fun x hx => hpre x (by simp [hx])
    obtain ⟨ih1, ih2, ih3, ih4⟩ := ih hrest
    have hstep : ∀ l, createPollLoop (Except.ok [s] :: l)
        = (createPollLoop l).map (fun r => (r.1, r.2 + 1)) := by
      intro l
      simp [createPollLoop, hs, resourceStatusCreateInProgress, resourceStatusCreateComplete,
        resourceStatusCreateFailed]
    refine ⟨fun h => ?_, fun h => ?_, fun h1 h2 h3 => ?_, ?_⟩
    · simp [List.map_cons, hstep, ih1 h, List.length_cons]
    · simp [List.map_cons, hstep, ih2 h, List.length_cons]
    · simp [List.map_cons, hstep, ih3 h1 h2 h3, List.length_cons]
    · simp [List.map_cons, hstep, ih4]

/-- Witness: the spec's concrete run — two in-progress responses followed
by complete — succeeds after exactly two poll delays, and a failed run
carries the provider's reason with no further polling. -/
theorem createPollLoop_lifecycle_witness :
    ((∀ s ∈ [({ stackStatus := "CREATE_IN_PROGRESS", stackStatusReason := "" } : StackInfo),
              { stackStatus := "CREATE_IN_PROGRESS", stackStatusReason := "" }],
        s.stackStatus = resourceStatusCreateInProgress)
    ∧ ({ stackStatus := "CREATE_COMPLETE", stackStatusReason := "" } : StackInfo).stackStatus
        = resourceStatusCreateComplete)
    ∧ createPollLoop
        [.ok [{ stackStatus := "CREATE_IN_PROGRESS", stackStatusReason := "" }],
         .ok [{ stackStatus := "CREATE_IN_PROGRESS", stackStatusReason := "" }],
         .ok [{ stackStatus := "CREATE_COMPLETE", stackStatusReason := "" }]]
      = some (.ok (), 2) :=
  ⟨⟨by decide, by decide⟩, by
    have h := (createPollLoop_lifecycle
      [{ stackStatus := "CREATE_IN_PROGRESS", stackStatusReason := "" },
       { stackStatus := "CREATE_IN_PROGRESS", stackStatusReason := "" }]
      (by decide)
      { stackStatus := "CREATE_COMPLETE", stackStatusReason := "" } []).1 (by decide)
    simpa using h⟩

lemma validateStackT_flag_eq (cfg : ClusterCfg) (env : ValidateEnv) (report : String)
    (h : env.validateTemplate = .ok report) :
    (ValidateStackT cfg env).2 = ((cfg.vpcID != "") && classifiedNotExist cfg env) := by
  simp only [ValidateStackT, h, classifiedNotExist]
  cases hds : env.describeStacks with
  | error e =>
    by_cases hm : stackNotExistMatch cfg.clusterName e
    · simp only [if_pos hm, Bool.not_false, Bool.and_true]
      cases hvv : validateExistingVPC cfg env.vpc <;>
        by_cases hv : cfg.vpcID = "" <;>
          simp [hvv, hv, hm, bne_iff_ne]
    · simp [hm]
  | ok sl =>
    by_cases hl : sl.length > 1
    · simp [hl]
    · simp [hl]

lemma validateStack_vpc_irrelevant (cfg : ClusterCfg) (env : ValidateEnv) (report : String)
    (h : env.validateTemplate = .ok report)
    (hf : (ValidateStackT cfg env).2 = false) (v : VpcEnv) :
    ValidateStack cfg { env with vpc := v } = ValidateStack cfg env := by
  rw [validateStackT_flag_eq cfg env report h] at hf
  simp only [ValidateStack, ValidateStackT, h, classifiedNotExist] at hf ⊢
  cases hds : env.describeStacks with
  | error e =>
    rw [hds] at hf
    by_cases hm : stackNotExistMatch cfg.clusterName e
    · have hv : cfg.vpcID = "" := by
        by_contra hv
        simp [hm, hv, bne_iff_ne] at hf
      simp [hm, hv]
    · simp [hm]
  | ok sl =>
    by_cases hl : sl.length > 1 <;> simp [hl]

lemma validateStack_ok_stacks (cfg : ClusterCfg) (env : ValidateEnv) (report : String)
    (sl : List StackInfo) (h : env.validateTemplate = .ok report)
    (hds : env.describeStacks = .ok sl) (hl : sl.length ≤ 1) :
    ValidateStack cfg env = .ok report ∧ (ValidateStackT cfg env).2 = false := by
  have hl' : ¬ sl.length > 1 := by omega
  simp [ValidateStack, ValidateStackT, h, hds, hl']

lemma validateStack_notexist_no_vpc (cfg : ClusterCfg) (env : ValidateEnv) (report e : String)
    (h : env.validateTemplate = .ok report) (hds : env.describeStacks = .error e)
    (hm : stackNotExistMatch cfg.clusterName e = true) (hv : cfg.vpcID = "") :
    ValidateStack cfg env = .ok report ∧ (ValidateStackT cfg env).2 = false := by
  simp [ValidateStack, ValidateStackT, h, hds, hm, hv]

lemma validateStack_describe_error (cfg : ClusterCfg) (env : ValidateEnv) (report e : String)
    (h : env.validateTemplate = .ok report) (hds : env.describeStacks = .error e)
    (hm : stackNotExistMatch cfg.clusterName e = false) :
    ValidateStack cfg env = .error ("error describing stack: " ++ e)
      ∧ (ValidateStackT cfg env).2 = false := by
  simp [ValidateStack, ValidateStackT, h, hds, hm]

/-- C1: under a successful template validation, `ValidateStack` reaches
`validateExistingVPC` (the instrumentation flag) exactly when the
configured VPC id is non-empty and the describe-by-name call classified
the stack as not existing.  When the check is skipped the result is
independent of the EC2 environment, and in the two skip cases — stack
exists (describe succeeded with at most one stack) or no VPC id
configured — the raw validation report is returned. -/
theorem validateStack_conflict_gate (cfg : ClusterCfg) (env : ValidateEnv) (report : String)
    (h : env.validateTemplate = .ok report) :
    ((ValidateStackT cfg env).2 = ((cfg.vpcID != "") && classifiedNotExist cfg env))
    ∧ ((ValidateStackT cfg env).2 = false →
        ∀ v : VpcEnv, ValidateStack cfg { env with vpc := v } = ValidateStack cfg env)
    ∧ (∀ sl, env.describeStacks = .ok sl → sl.length ≤ 1 →
        ValidateStack cfg env = .ok report ∧ (ValidateStackT cfg env).2 = false)
    ∧ (∀ e, env.describeStacks = .error e → stackNotExistMatch cfg.clusterName e = true →
        cfg.vpcID = "" →
        ValidateStack cfg env = .ok report ∧ (ValidateStackT cfg env).2 = false) :=
  ⟨validateStackT_flag_eq cfg env report h,
    fun hf v => validateStack_vpc_irrelevant cfg env report h hf v,
    fun sl hds hl => validateStack_ok_stacks cfg env report sl h hds hl,
    fun e hds hm hv => validateStack_notexist_no_vpc cfg env report e h hds hm hv⟩

theorem validateStack_conflict_gate_witness :
    (({ validateTemplate := .ok "report", describeStacks := .ok [],
        vpc := { describeVpcs := .ok [], describeSubnets := .ok { subnets := [], nextToken := none } } }
        : ValidateEnv).validateTemplate = .ok "report")
    ∧ (ValidateStackT
        { clusterName := "mycluster", vpcID := "", vpcCIDR := "", instanceCIDR := "",
          region := "us-west-1" }
        { validateTemplate := .ok "report", describeStacks := .ok [],
          vpc := { describeVpcs := .ok [],
                   describeSubnets := .ok { subnets := [], nextToken := none } } }).2
      = (("" != "") && classifiedNotExist
          { clusterName := "mycluster", vpcID := "", vpcCIDR := "", instanceCIDR := "",
            region := "us-west-1" }
          { validateTemplate := .ok "report", describeStacks := .ok [],
            vpc := { describeVpcs := .ok [],
                     describeSubnets := .ok { subnets := [], nextToken := none } } })
    ∧ ValidateStack
        { clusterName := "mycluster", vpcID := "", vpcCIDR := "", instanceCIDR := "",
          region := "us-west-1" }
        { validateTemplate := .ok "report", describeStacks := .ok [],
          vpc := { describeVpcs := .ok [],
                   describeSubnets := .ok { subnets := [], nextToken := none } } }
      = .ok "report" :=
  ⟨rfl,
    (validateStack_conflict_gate
      { clusterName := "mycluster", vpcID := "", vpcCIDR := "", instanceCIDR := "",
        region := "us-west-1" }
      { validateTemplate := .ok "report", describeStacks := .ok [],
        vpc := { describeVpcs := .ok [],
                 describeSubnets := .ok { subnets := [], nextToken := none } } }
      "report" rfl).1,
    ((validateStack_conflict_gate
      { clusterName := "mycluster", vpcID := "", vpcCIDR := "", instanceCIDR := "",
        region := "us-west-1" }
      { validateTemplate := .ok "report", describeStacks := .ok [],
        vpc := { describeVpcs := .ok [],
                 describeSubnets := .ok { subnets := [], nextToken := none } } }
      "report" rfl).2.2.1 [] rfl (by decide)).1⟩

/-- C10: with a failing `DescribeStacks` call, `ValidateStack` treats the
stack as non-existent exactly when the error message matches the
`^ValidationError: Stack with id <clusterName> does not exist` pattern,
the cluster name being interpolated into the pattern unescaped (its `.`
characters match any character).  Behaviourally: the conflict-check flag
equals that match conjoined with a configured VPC id, and a non-matching
message is a transport error.  Consequently the cluster name `a.c`
classifies a not-found message naming the different stack `abc` as
absence of this stack. -/
theorem stackNotExist_regex_classification (cfg : ClusterCfg) (env : ValidateEnv)
    (report e : String) (h : env.validateTemplate = .ok report)
    (hds : env.describeStacks = .error e) :
    ((ValidateStackT cfg env).2 = ((cfg.vpcID != "") && stackNotExistMatch cfg.clusterName e))
    ∧ (stackNotExistMatch cfg.clusterName e = false →
        ValidateStack cfg env = .error ("error describing stack: " ++ e))
    ∧ stackNotExistMatch "a.c" "ValidationError: Stack with id abc does not exist" = true
    ∧ ("abc" : String) ≠ "a.c" := by
  refine ⟨?_, ?_, by decide, by decide⟩
  · rw [validateStackT_flag_eq cfg env report h]
    simp [classifiedNotExist, hds]
  · intro hm
    exact (validateStack_describe_error cfg env report e h hds hm).1

theorem stackNotExist_regex_classification_witness :
    (({ validateTemplate := .ok "report",
        describeStacks := .error "ValidationError: Stack with id abc does not exist",
        vpc := { describeVpcs := .ok [], describeSubnets := .ok { subnets := [], nextToken := none } } }
        : ValidateEnv).validateTemplate = .ok "report")
    ∧ (({ validateTemplate := .ok "report",
          describeStacks := .error "ValidationError: Stack with id abc does not exist",
          vpc := { describeVpcs := .ok [],
                   describeSubnets := .ok { subnets := [], nextToken := none } } }
        : ValidateEnv).describeStacks
        = .error "ValidationError: Stack with id abc does not exist")
    ∧ (ValidateStackT
        { clusterName := "a.c", vpcID := "", vpcCIDR := "", instanceCIDR := "",
          region := "us-west-1" }
        { validateTemplate := .ok "report",
          describeStacks := .error "ValidationError: Stack with id abc does not exist",
          vpc := { describeVpcs := .ok [],
                   describeSubnets := .ok { subnets := [], nextToken := none } } }).2
      = (("" != "") && stackNotExistMatch "a.c" "ValidationError: Stack with id abc does not exist") :=
  ⟨rfl, rfl,
    (stackNotExist_regex_classification
      { clusterName := "a.c", vpcID := "", vpcCIDR := "", instanceCIDR := "",
        region := "us-west-1" }
      { validateTemplate := .ok "report",
        describeStacks := .error "ValidationError: Stack with id abc does not exist",
        vpc := { describeVpcs := .ok [],
                 describeSubnets := .ok { subnets := [], nextToken := none } } }
      "report" "ValidationError: Stack with id abc does not exist" rfl rfl).1⟩

/- ---------------------------------------------------------------------
   Subnet-scan characterization (for the conflict-reporting claims)
--------------------------------------------------------------------- -/

/-- Does subnet `s` conflict with the candidate instance CIDR
`(ip, net)` under the code's two-way containment test?  An unparseable
subnet CIDR is not a conflict (the scan errors out instead). -/
def subnetConflicts (ip : Nat) (net : IPNet) (s : Subnet) : Bool :=
  match parseCIDR s.cidrBlock with
  | some (exIP, exNet) => overlapsCIDR ⟨ip, net⟩ ⟨exIP, exNet⟩
  | none => false

/-- The conflict message of cluster.go line 157 for subnet `s`: it names
the instance network, the conflicting subnet id, and the subnet network. -/
def conflictMsg (net : IPNet) (s : Subnet) : String :=
  match parseCIDR s.cidrBlock with
  | some (_, exNet) =>
    "instance cidr (" ++ net.render ++ ") conflicts with existing subnet "
      ++ s.subnetId ++ ", cidr=" ++ exNet.render
  | none => ""

lemma scanSubnets_eq_find (ip : Nat) (net : IPNet) (l : List Subnet)
    (h : ∀ s ∈ l, (parseCIDR s.cidrBlock).isSome = true) :
    scanSubnets ip net l = (l.find? (subnetConflicts ip net)).map (conflictMsg net) := by
  induction l with
  | nil => rfl
  | cons s rest ih =>
    obtain ⟨p, hp⟩ := Option.isSome_iff_exists.mp (h s (by simp))
    obtain ⟨exIP, exNet⟩ := p
    by_cases hc : overlapsCIDR ⟨ip, net⟩ ⟨exIP, exNet⟩ = true
    · simp [scanSubnets, hp, hc, subnetConflicts, conflictMsg, List.find?_cons]
    · rw [Bool.not_eq_true] at hc
      simp only [scanSubnets, hp, List.find?_cons, subnetConflicts, hc, Bool.false_eq_true,
        if_false]
      exact ih (fun x hx => h x (by simp [hx]))

lemma scanSubnets_none_iff (ip : Nat) (net : IPNet) (l : List Subnet) :
    scanSubnets ip net l = none ↔
      ∀ s ∈ l, (parseCIDR s.cidrBlock).isSome = true ∧ subnetConflicts ip net s = false := by
  induction l with
  | nil => simp [scanSubnets]
  | cons s rest ih =>
    cases hp : parseCIDR s.cidrBlock with
    | none => simp [scanSubnets, hp, subnetConflicts]
    | some p =>
      obtain ⟨exIP, exNet⟩ := p
      by_cases hc : overlapsCIDR ⟨ip, net⟩ ⟨exIP, exNet⟩ = true
      · simp [scanSubnets, hp, hc, subnetConflicts]
      · simp [scanSubnets, hp, hc, subnetConflicts, ih]

lemma validateExistingVPCT_run (cfg : ClusterCfg) (env : VpcEnv) (vpc : Vpc)
    (page : SubnetsPage) (ip : Nat) (net : IPNet)
    (hv : env.describeVpcs = .ok [vpc]) (heq : vpc.cidrBlock = cfg.vpcCIDR)
    (hs : env.describeSubnets = .ok page)
    (hp : parseCIDR cfg.instanceCIDR = some (ip, net)) :
    validateExistingVPCT cfg env = (scanSubnets ip net page.subnets, true) := by
  simp [validateExistingVPCT, hv, heq, hs, hp]

/-- Byte-lexicographic order on character lists: the order Go's
`sort.Strings` would use on (ASCII) subnet ids.  Defined structurally so
concrete comparisons reduce in the kernel. -/
def charListLt : List Char → List Char → Bool
  | [], [] => false
  | [], _ :: _ => true
  | _ :: _, [] => false
  | a :: as, b :: bs =>
    if a.toNat < b.toNat then true
    else if b.toNat < a.toNat then false
    else charListLt as bs

/-- Byte-lexicographic order on strings (via their character lists). -/
def stringLtB (a b : String) : Bool :=
  charListLt a.toList b.toList

/-- C4 counterexample: the scan is NOT sorted by subnet id.  With the
provider returning `subnet-z` (10.0.1.0/24) before `subnet-a`
(10.0.1.192/26), both conflicting with candidate 10.0.1.128/25, the
reported conflict names `subnet-z` — the first in response order — even
though `subnet-a` comes first in sorted-subnet-id order. -/
theorem validateExistingVPC_sorted_order_counterexample :
    validateExistingVPC
        { clusterName := "mycluster", vpcID := "vpc-1", vpcCIDR := "10.0.0.0/16",
          instanceCIDR := "10.0.1.128/25", region := "us-west-1" }
        { describeVpcs := .ok [{ vpcId := "vpc-1", cidrBlock := "10.0.0.0/16" }],
          describeSubnets := .ok
            { subnets := [{ subnetId := "subnet-z", cidrBlock := "10.0.1.0/24" },
                          { subnetId := "subnet-a", cidrBlock := "10.0.1.192/26" }],
              nextToken := none } }
      = some "instance cidr (10.0.1.128/25) conflicts with existing subnet subnet-z, cidr=10.0.1.0/24"
    ∧ subnetConflicts 167772544 { base := 167772544, maskLen := 25 }
        { subnetId := "subnet-a", cidrBlock := "10.0.1.192/26" } = true
    ∧ subnetConflicts 167772544 { base := 167772544, maskLen := 25 }
        { subnetId := "subnet-z", cidrBlock := "10.0.1.0/24" } = true
    ∧ stringLtB "subnet-a" "subnet-z" = true
    ∧ validateExistingVPC
        { clusterName := "mycluster", vpcID := "vpc-1", vpcCIDR := "10.0.0.0/16",
          instanceCIDR := "10.0.1.128/25", region := "us-west-1" }
        { describeVpcs := .ok [{ vpcId := "vpc-1", cidrBlock := "10.0.0.0/16" }],
          describeSubnets := .ok
            { subnets := [{ subnetId := "subnet-z", cidrBlock := "10.0.1.0/24" },
                          { subnetId := "subnet-a", cidrBlock := "10.0.1.192/26" }],
              nextToken := none } }
      ≠ some "instance cidr (10.0.1.128/25) conflicts with existing subnet subnet-a, cidr=10.0.1.192/26" := by
  refine ⟨by decide, by decide, by decide, by decide, by decide⟩

/-- C4 amended: with the single matching VPC, a successful subnet listing
and all CIDRs parseable, `validateExistingVPC` reports the first conflict
in the provider's response order (no sorting), the error being the
line-157 message naming the conflicting subnet id and both network
CIDRs. -/
theorem validateExistingVPC_first_conflict_response_order (cfg : ClusterCfg) (env : VpcEnv)
    (vpc : Vpc) (page : SubnetsPage) (ip : Nat) (net : IPNet)
    (hv : env.describeVpcs = .ok [vpc]) (heq : vpc.cidrBlock = cfg.vpcCIDR)
    (hs : env.describeSubnets = .ok page)
    (hp : parseCIDR cfg.instanceCIDR = some (ip, net))
    (hall : ∀ s ∈ page.subnets, (parseCIDR s.cidrBlock).isSome = true) :
    validateExistingVPC cfg env
      = (page.subnets.find? (subnetConflicts ip net)).map (conflictMsg net) := by
  rw [validateExistingVPC, validateExistingVPCT_run cfg env vpc page ip net hv heq hs hp]
  exact scanSubnets_eq_find ip net page.subnets hall

/-- Witness: the spec's own example — VPC 10.0.0.0/16, existing subnets
10.0.1.0/24 and 10.0.2.0/24 — where candidate 10.0.3.0/24 succeeds. -/
theorem validateExistingVPC_first_conflict_response_order_witness :
    (({ describeVpcs := .ok [{ vpcId := "vpc-1", cidrBlock := "10.0.0.0/16" }],
        describeSubnets := .ok
          { subnets := [{ subnetId := "subnet-a", cidrBlock := "10.0.1.0/24" },
                        { subnetId := "subnet-b", cidrBlock := "10.0.2.0/24" }],
            nextToken := none } } : VpcEnv).describeVpcs
        = .ok [{ vpcId := "vpc-1", cidrBlock := "10.0.0.0/16" }])
    ∧ parseCIDR "10.0.3.0/24" = some (167772928, { base := 167772928, maskLen := 24 })
    ∧ validateExistingVPC
        { clusterName := "mycluster", vpcID := "vpc-1", vpcCIDR := "10.0.0.0/16",
          instanceCIDR := "10.0.3.0/24", region := "us-west-1" }
        { describeVpcs := .ok [{ vpcId := "vpc-1", cidrBlock := "10.0.0.0/16" }],
          describeSubnets := .ok
            { subnets := [{ subnetId := "subnet-a", cidrBlock := "10.0.1.0/24" },
                          { subnetId := "subnet-b", cidrBlock := "10.0.2.0/24" }],
              nextToken := none } }
      = ([({ subnetId := "subnet-a", cidrBlock := "10.0.1.0/24" } : Subnet),
          { subnetId := "subnet-b", cidrBlock := "10.0.2.0/24" }].find?
            (subnetConflicts 167772928 { base := 167772928, maskLen := 24 })).map
          (conflictMsg { base := 167772928, maskLen := 24 })
    ∧ validateExistingVPC
        { clusterName := "mycluster", vpcID := "vpc-1", vpcCIDR := "10.0.0.0/16",
          instanceCIDR := "10.0.3.0/24", region := "us-west-1" }
        { describeVpcs := .ok [{ vpcId := "vpc-1", cidrBlock := "10.0.0.0/16" }],
          describeSubnets := .ok
            { subnets := [{ subnetId := "subnet-a", cidrBlock := "10.0.1.0/24" },
                          { subnetId := "subnet-b", cidrBlock := "10.0.2.0/24" }],
              nextToken := none } }
      = none :=
  ⟨rfl, by decide,
    validateExistingVPC_first_conflict_response_order
      { clusterName := "mycluster", vpcID := "vpc-1", vpcCIDR := "10.0.0.0/16",
        instanceCIDR := "10.0.3.0/24", region := "us-west-1" }
      { describeVpcs := .ok [{ vpcId := "vpc-1", cidrBlock := "10.0.0.0/16" }],
        describeSubnets := .ok
          { subnets := [{ subnetId := "subnet-a", cidrBlock := "10.0.1.0/24" },
                        { subnetId := "subnet-b", cidrBlock := "10.0.2.0/24" }],
            nextToken := none } }
      { vpcId := "vpc-1", cidrBlock := "10.0.0.0/16" }
      { subnets := [{ subnetId := "subnet-a", cidrBlock := "10.0.1.0/24" },
                    { subnetId := "subnet-b", cidrBlock := "10.0.2.0/24" }],
        nextToken := none }
      167772928 { base := 167772928, maskLen := 24 }
      rfl rfl rfl (by decide) (by decide),
    by decide⟩

/- ---------------------------------------------------------------------
   Pagination model for DescribeSubnets (claim about the subnet listing)
--------------------------------------------------------------------- -/

/-- A paginating provider holding its subnets in `pages`.  The response
to the code's single, token-less `DescribeSubnets` call: the first page,
with a continuation token exactly when further pages exist. -/
def firstPageResp (pages : List (List Subnet)) : SubnetsPage :=
  { subnets := pages.headD [],
    nextToken := if pages.length ≤ 1 then none else some "token" }

/-- All subnets the provider holds for the VPC, across every page. -/
def allPagedSubnets (pages : List (List Subnet)) : List Subnet :=
  pages.flatten

/-- C6 counterexample: `validateExistingVPC` does not paginate.  With the
provider holding a non-conflicting subnet on page one and a conflicting
subnet (`subnet-b`, same CIDR as the instance CIDR) on page two, the
single-call response carries a continuation token, yet validation
succeeds (`none`): the conflicting subnet on the later page escapes the
overlap test. -/
theorem validateExistingVPC_pagination_counterexample :
    validateExistingVPC
        { clusterName := "mycluster", vpcID := "vpc-1", vpcCIDR := "10.0.0.0/16",
          instanceCIDR := "10.0.1.0/24", region := "us-west-1" }
        { describeVpcs := .ok [{ vpcId := "vpc-1", cidrBlock := "10.0.0.0/16" }],
          describeSubnets := .ok (firstPageResp
            [[{ subnetId := "subnet-a", cidrBlock := "10.0.2.0/24" }],
             [{ subnetId := "subnet-b", cidrBlock := "10.0.1.0/24" }]]) }
      = none
    ∧ (firstPageResp
        [[{ subnetId := "subnet-a", cidrBlock := "10.0.2.0/24" }],
         [{ subnetId := "subnet-b", cidrBlock := "10.0.1.0/24" }]]).nextToken = some "token"
    ∧ ({ subnetId := "subnet-b", cidrBlock := "10.0.1.0/24" } : Subnet)
        ∈ allPagedSubnets
          [[{ subnetId := "subnet-a", cidrBlock := "10.0.2.0/24" }],
           [{ subnetId := "subnet-b", cidrBlock := "10.0.1.0/24" }]]
    ∧ parseCIDR "10.0.1.0/24" = some (167772416, { base := 167772416, maskLen := 24 })
    ∧ subnetConflicts 167772416 { base := 167772416, maskLen := 24 }
        { subnetId := "subnet-b", cidrBlock := "10.0.1.0/24" } = true := by
  refine ⟨by decide, by decide, by decide, by decide, by decide⟩

/-- C6 amended: the conflict check examines exactly the subnets of the
one `DescribeSubnets` response (no pagination loop; the response's
continuation token is ignored), and succeeds with a nil error precisely
when every subnet in that single response parses and none of them
conflicts with the instance CIDR. -/
theorem validateExistingVPC_single_page_scan (cfg : ClusterCfg) (env : VpcEnv)
    (vpc : Vpc) (page : SubnetsPage) (ip : Nat) (net : IPNet)
    (hv : env.describeVpcs = .ok [vpc]) (heq : vpc.cidrBlock = cfg.vpcCIDR)
    (hs : env.describeSubnets = .ok page)
    (hp : parseCIDR cfg.instanceCIDR = some (ip, net)) :
    validateExistingVPC cfg env = none ↔
      ∀ s ∈ page.subnets,
        (parseCIDR s.cidrBlock).isSome = true ∧ subnetConflicts ip net s = false := by
  rw [validateExistingVPC, validateExistingVPCT_run cfg env vpc page ip net hv heq hs hp]
  exact scanSubnets_none_iff ip net page.subnets

/-- Witness: zero subnets in the single response (with a pending
continuation token the code never reads) trivially succeed. -/
theorem validateExistingVPC_single_page_scan_witness :
    (({ describeVpcs := .ok [{ vpcId := "vpc-1", cidrBlock := "10.0.0.0/16" }],
        describeSubnets := .ok { subnets := [], nextToken := some "token" } } : VpcEnv).describeSubnets
      = .ok { subnets := [], nextToken := some "token" })
    ∧ parseCIDR "10.0.1.0/24" = some (167772416, { base := 167772416, maskLen := 24 })
    ∧ (validateExistingVPC
        { clusterName := "mycluster", vpcID := "vpc-1", vpcCIDR := "10.0.0.0/16",
          instanceCIDR := "10.0.1.0/24", region := "us-west-1" }
        { describeVpcs := .ok [{ vpcId := "vpc-1", cidrBlock := "10.0.0.0/16" }],
          describeSubnets := .ok { subnets := [], nextToken := some "token" } }
      = none ↔
      ∀ s ∈ ([] : List Subnet),
        (parseCIDR s.cidrBlock).isSome = true
          ∧ subnetConflicts 167772416 { base := 167772416, maskLen := 24 } s = false) :=
  ⟨rfl, by decide,
    validateExistingVPC_single_page_scan
      { clusterName := "mycluster", vpcID := "vpc-1", vpcCIDR := "10.0.0.0/16",
        instanceCIDR := "10.0.1.0/24", region := "us-west-1" }
      { describeVpcs := .ok [{ vpcId := "vpc-1", cidrBlock := "10.0.0.0/16" }],
        describeSubnets := .ok { subnets := [], nextToken := some "token" } }
      { vpcId := "vpc-1", cidrBlock := "10.0.0.0/16" }
      { subnets := [], nextToken := some "token" }
      167772416 { base := 167772416, maskLen := 24 }
      rfl rfl rfl (by decide)⟩

/-- C7 counterexample: `Info` never sets the `Name` field.  With a
successful listing containing `EIPController` with a physical id, and the
configured cluster name `"mycluster"`, the returned `ClusterInfo` has
`Name = ""`, not the cluster name (line 264: `var info ClusterInfo` is
zero-valued and only `ControllerIP` is ever assigned). -/
theorem info_name_field_counterexample :
    Info { clusterName := "mycluster", vpcID := "", vpcCIDR := "", instanceCIDR := "",
           region := "us-west-1" }
        [.ok { summaries := [{ logicalResourceId := "EIPController",
                               physicalResourceId := some "198.51.100.5" }], nextToken := none }]
      = some (.ok { Name := "", ControllerIP := "198.51.100.5" })
    ∧ ({ Name := "", ControllerIP := "198.51.100.5" } : ClusterInfo).Name ≠ "mycluster" :=
  ⟨rfl, by decide⟩

/-- C7 amended: when the resource listing succeeds and the unique
`EIPController` resource carries a physical id, `Info` returns a
`ClusterInfo` whose `ControllerIP` is that physical id and whose `Name`
is left at the zero value (the empty string), regardless of the
configured cluster name. -/
theorem info_controller_ip_name_empty (cfg : ClusterCfg)
    (responses : List (Except String ResourcesPage)) (rs : List StackResourceSummary)
    (r : StackResourceSummary) (v : String)
    (h : collectStackResources responses = some (.ok rs))
    (hf : rs.filter (fun x => x.logicalResourceId == "EIPController") = [r])
    (hv : r.physicalResourceId = some v) :
    Info cfg responses = some (.ok { Name := "", ControllerIP := v }) := by
  simp only [Info, h]
  rw [infoScan_single_eip rs r v _ hf hv]

theorem info_controller_ip_name_empty_witness :
    (collectStackResources
        [.ok { summaries := [{ logicalResourceId := "EIPController",
                               physicalResourceId := some "198.51.100.7" }],
               nextToken := some "t" },
         .ok { summaries := [{ logicalResourceId := "Controller",
                               physicalResourceId := some "i-1" }], nextToken := none }]
      = some (.ok [{ logicalResourceId := "EIPController", physicalResourceId := some "198.51.100.7" },
                   { logicalResourceId := "Controller", physicalResourceId := some "i-1" }]))
    ∧ Info { clusterName := "mycluster", vpcID := "", vpcCIDR := "", instanceCIDR := "",
             region := "us-west-1" }
        [.ok { summaries := [{ logicalResourceId := "EIPController",
                               physicalResourceId := some "198.51.100.7" }],
               nextToken := some "t" },
         .ok { summaries := [{ logicalResourceId := "Controller",
                               physicalResourceId := some "i-1" }], nextToken := none }]
      = some (.ok { Name := "", ControllerIP := "198.51.100.7" }) :=
  ⟨rfl,
    info_controller_ip_name_empty
      { clusterName := "mycluster", vpcID := "", vpcCIDR := "", instanceCIDR := "",
        region := "us-west-1" }
      [.ok { summaries := [{ logicalResourceId := "EIPController",
                             physicalResourceId := some "198.51.100.7" }],
             nextToken := some "t" },
       .ok { summaries := [{ logicalResourceId := "Controller",
                             physicalResourceId := some "i-1" }], nextToken := none }]
      [{ logicalResourceId := "EIPController", physicalResourceId := some "198.51.100.7" },
       { logicalResourceId := "Controller", physicalResourceId := some "i-1" }]
      { logicalResourceId := "EIPController", physicalResourceId := some "198.51.100.7" }
      "198.51.100.7" rfl (by decide) rfl⟩

/- ---------------------------------------------------------------------
   The overlap predicate: symmetry, reflexivity, range intersection
--------------------------------------------------------------------- -/

lemma maskAddr_le (ip m : Nat) : maskAddr ip m ≤ ip :=
  Nat.div_mul_le_self ip _

lemma lt_maskAddr_add (ip m : Nat) : ip < maskAddr ip m + 2 ^ (32 - m) := by
  have hp : 0 < 2 ^ (32 - m) := Nat.two_pow_pos _
  calc ip = 2 ^ (32 - m) * (ip / 2 ^ (32 - m)) + ip % 2 ^ (32 - m) := (Nat.div_add_mod _ _).symm
    _ < 2 ^ (32 - m) * (ip / 2 ^ (32 - m)) + 2 ^ (32 - m) :=
        Nat.add_lt_add_left (Nat.mod_lt _ hp) _
    _ = maskAddr ip m + 2 ^ (32 - m) := by rw [maskAddr, Nat.mul_comm]

lemma contains_base_eq {n : IPNet} {ip : Nat} (h : n.contains ip = true) :
    n.base = ip / 2 ^ (32 - n.maskLen) * 2 ^ (32 - n.maskLen) := by
  have := (beq_iff_eq).mp h
  rw [← this]
  rfl

/-- Membership of `x` in the range of a prefix that contains `ip` is
exactly agreement with `ip` on the high bits. -/
lemma inRange_iff_div_eq {n : IPNet} {ip : Nat} (h : n.contains ip = true) (x : Nat) :
    n.inRange x ↔ x / 2 ^ (32 - n.maskLen) = ip / 2 ^ (32 - n.maskLen) := by
  have hb := contains_base_eq h
  constructor
  · rintro ⟨h1, h2⟩
    rw [hb] at h1 h2
    exact Nat.div_eq_of_lt_le h1 (by rw [Nat.succ_mul]; exact h2)
  · intro hx
    constructor
    · rw [hb, ← hx]
      exact Nat.div_mul_le_self x _
    · rw [hb, ← hx]
      have := lt_maskAddr_add x n.maskLen
      rw [maskAddr] at this
      exact this

lemma contains_inRange {n : IPNet} {ip : Nat} (h : n.contains ip = true) :
    n.inRange ip :=
  (inRange_iff_div_eq h ip).mpr rfl

lemma div_pow_eq_of_le {s t x y : Nat} (hst : s ≤ t) (h : x / 2 ^ s = y / 2 ^ s) :
    x / 2 ^ t = y / 2 ^ t := by
  have hts : (2 : Nat) ^ t = 2 ^ s * 2 ^ (t - s) := by
    rw [← pow_add]
    congr 1
    omega
  rw [hts, ← Nat.div_div_eq_div_mul, ← Nat.div_div_eq_div_mul, h]

lemma contains_of_div_eq {n : IPNet} {ip y : Nat} (h : n.contains ip = true)
    (hq : y / 2 ^ (32 - n.maskLen) = ip / 2 ^ (32 - n.maskLen)) :
    n.contains y = true := by
  have hb := contains_base_eq h
  rw [IPNet.contains, maskAddr, beq_iff_eq, hq, hb]

/-- C5: the code's two-way containment test on parsed CIDRs (each
carrying an IP inside its own network, as `net.ParseCIDR` produces) is
symmetric, reflexive, and holds exactly when the two prefixes' address
ranges intersect. -/
theorem overlapsCIDR_symm_refl_intersect (a b : ParsedCIDR)
    (ha : a.net.contains a.ip = true) (hb : b.net.contains b.ip = true) :
    overlapsCIDR a b = overlapsCIDR b a
    ∧ overlapsCIDR a a = true
    ∧ (overlapsCIDR a b = true ↔ ∃ x, a.net.inRange x ∧ b.net.inRange x) := by
  refine ⟨by simp [overlapsCIDR, Bool.or_comm], by simp [overlapsCIDR, ha], ?_, ?_⟩
  · intro hov
    rcases Bool.or_eq_true_iff.mp hov with h1 | h1
    · exact ⟨a.ip, contains_inRange ha, contains_inRange h1⟩
    · exact ⟨b.ip, contains_inRange h1, contains_inRange hb⟩
  · rintro ⟨x, hxa, hxb⟩
    have h1 := (inRange_iff_div_eq ha x).mp hxa
    have h2 := (inRange_iff_div_eq hb x).mp hxb
    rcases Nat.le_total (32 - a.net.maskLen) (32 - b.net.maskLen) with hst | hst
    · have h3 := div_pow_eq_of_le hst h1
      have h4 : a.ip / 2 ^ (32 - b.net.maskLen) = b.ip / 2 ^ (32 - b.net.maskLen) := by
        rw [← h3, h2]
      have hcb : b.net.contains a.ip = true := contains_of_div_eq hb h4
      simp [overlapsCIDR, hcb]
    · have h3 := div_pow_eq_of_le hst h2
      have h4 : b.ip / 2 ^ (32 - a.net.maskLen) = a.ip / 2 ^ (32 - a.net.maskLen) := by
        rw [← h3, h1]
      have hca : a.net.contains b.ip = true := contains_of_div_eq ha h4
      simp [overlapsCIDR, hca]

/-- Witness: the overlapping pair 10.0.1.0/24 and 10.0.1.128/25. -/
theorem overlapsCIDR_symm_refl_intersect_witness :
    (({ ip := 167772416, net := { base := 167772416, maskLen := 24 } } : ParsedCIDR).net.contains
        167772416 = true)
    ∧ (({ ip := 167772544, net := { base := 167772544, maskLen := 25 } } : ParsedCIDR).net.contains
        167772544 = true)
    ∧ (overlapsCIDR { ip := 167772416, net := { base := 167772416, maskLen := 24 } }
          { ip := 167772544, net := { base := 167772544, maskLen := 25 } }
        = overlapsCIDR { ip := 167772544, net := { base := 167772544, maskLen := 25 } }
          { ip := 167772416, net := { base := 167772416, maskLen := 24 } }
      ∧ overlapsCIDR { ip := 167772416, net := { base := 167772416, maskLen := 24 } }
          { ip := 167772416, net := { base := 167772416, maskLen := 24 } } = true
      ∧ (overlapsCIDR { ip := 167772416, net := { base := 167772416, maskLen := 24 } }
            { ip := 167772544, net := { base := 167772544, maskLen := 25 } } = true ↔
          ∃ x, ({ base := 167772416, maskLen := 24 } : IPNet).inRange x
            ∧ ({ base := 167772544, maskLen := 25 } : IPNet).inRange x)) :=
  ⟨by decide, by decide,
    overlapsCIDR_symm_refl_intersect
      { ip := 167772416, net := { base := 167772416, maskLen := 24 } }
      { ip := 167772544, net := { base := 167772544, maskLen := 25 } }
      (by decide) (by decide)⟩
